import Mathlib

/-!
Shallow embedding of `pupil_src/shared_modules/surface_tracker/surface_tracker_offline.py`
(class `Surface_Tracker_Offline`), the offline marker-cache and background-fill
pipeline of the pupil player.

Modelling conventions.
The Python object state is modelled by the structure `Tracker`; every method of
the class becomes a pure function `Tracker -> Tracker × List TEvent`, where the
event list records, in call order, the externally visible calls the method body
makes (creating or cancelling background producers, persisting caches, updating
a surface location cache, running the heatmap or statistics steps).  Marker
detections are an abstract type parameter `M`; the inherited helpers
`_filter_markers` and `_remove_duplicate_markers` (defined in the base class
`Surface_Tracker`, outside this file) are abstract function parameters
`filt dedup : List M → List M`.  A `Cache_List` slot is `False` (never visited),
`[]` (visited, nothing found) or a nonempty list; we model it as
`Option (List M)` with `none` standing for the `False` sentinel.  Real time in
the debounced save is an explicit `now : Nat` parameter.
-/

namespace SurfaceTrackerOffline

/-- One slot of a `Cache_List`: `none` is the Python `False` sentinel (frame never
visited), `some l` is a list of detections, possibly empty. -/
abbrev Slot (M : Type) := Option (List M)

/-- Embeds `_cache_positive_eval_fn` (last lines of the file):
`(x is not False) and len(x) > 0`. -/
def cache_positive_eval_fn {M : Type} : Slot M → Bool
  | none => false
  | some l => decide (0 < l.length)

/-- The constant `self.MARKER_CACHE_VERSION = 3` set in `__init__`. -/
def MARKER_CACHE_VERSION : Nat := 3

/-- The constant `self.CACHE_UPDATE_INTERVAL_SEC = 5` set in `__init__`. -/
def CACHE_UPDATE_INTERVAL_SEC : Nat := 5

/-- The view of a surface location cache that the export code of this file
reads: its `positive_ranges`, a list of `(enter_frame_id, exit_frame_id)`
pairs.  The cache itself lives in `Surface_Offline`, outside this file. -/
structure LocCache where
  positive_ranges : List (Nat × Nat)
deriving DecidableEq

/-- Per-surface state as seen from this file.  `sname` models `surface.name`
(names abstracted to numbers), `location_cache` the attribute this file reads
and resets, `heatmap_placeholder` records that `within_surface_heatmap` was set
to `get_placeholder_heatmap()`, and `visible_count` is the abstract value
`surface.visible_count_in_section(section)` returns for the export section
(the method itself lives in `Surface_Offline`, outside this file). -/
structure Surface where
  sname : Nat
  location_cache : Option LocCache
  heatmap_placeholder : Bool
  visible_count : Nat
deriving DecidableEq

/-- The background video processor (`background_tasks.background_video_processor`)
as seen by its owner: an id, the queue of `(frame_index, detections)` pairs the
next `fetch()` drains, and its `completed` flag. -/
structure VideoFiller (M : Type) where
  fid : Nat
  pending : List (Nat × List M)
  completedFlag : Bool
deriving DecidableEq

/-- A gaze or fixation buffer filler (`background_tasks.background_gaze_on_surface`)
as seen by its owner: an id, the items the next `fetch()` drains (abstracted to
numbers), and its `completed` flag. -/
structure BufFiller where
  fid : Nat
  pending : List Nat
  completedFlag : Bool
deriving DecidableEq

/-- Externally visible calls a method body makes, in call order.  The
constructors are the lifecycle and persistence API offered by the external
collaborators (`background_tasks`, `file_methods`, `Surface_Offline`); the
embedding of each method emits exactly the calls the Python body performs.
`createVideoFiller` records the snapshot `list(self.marker_cache)` and the
`inverted_markers` flag the producer is constructed with;
`updLocationCache i j c` records `self.surfaces[i].update_location_cache(j, c, ...)`
with `c` the value of the marker cache passed in. -/
inductive TEvent (M : Type)
  | cancelVideoFiller (fid : Nat)
  | createVideoFiller (fid : Nat) (snapshot : List (Slot M)) (inverted : Bool)
  | cancelGazeFiller (fid : Nat)
  | createGazeFiller (fid : Nat)
  | cancelFixationFiller (fid : Nat)
  | createFixationFiller (fid : Nat)
  | updLocationCache (surfIdx : Nat) (frameIdx : Nat) (cache : List (Slot M))
  | saveMarkerCache
  | saveSurfaceDefinitions
  | updateSurfaceHeatmaps
  | saveSurfaceStatistics
deriving DecidableEq

/-- The mutable state of a `Surface_Tracker_Offline` instance, restricted to the
fields this file reads or writes.  `frameCount` is `len(self.g_pool.timestamps)`;
`heatmap_update_requests` holds the indices of the surfaces in
`self._heatmap_update_requests` (a set in Python, so only membership matters);
`export_params` keeps the export range of the `should_export` notification (the
export directory is handled by the filesystem collaborator); `nextId` is a
fresh-id counter for newly created background producers. -/
structure Tracker (M : Type) where
  frameCount : Nat
  marker_cache_unfiltered : List (Slot M)
  marker_cache : List (Slot M)
  cache_filler : Option (VideoFiller M)
  surfaces : List Surface
  heatmap_update_requests : List Nat
  gaze_on_surf_buffer : Option (List Nat)
  gaze_on_surf_buffer_filler : Option BufFiller
  fixations_on_surf_buffer : Option (List Nat)
  fixations_on_surf_buffer_filler : Option BufFiller
  make_export : Bool
  export_params : Option (Nat × Nat)
  inverted_markers : Bool
  last_cache_update_ts : Nat
  nextId : Nat
deriving DecidableEq

variable {M : Type}

/-- One slot of the loop body of `_update_filtered_markers`:
`if markers: markers = self._filter_markers(markers)` — the truthiness test
keeps the `False` sentinel and the empty list unchanged and filters a nonempty
list. -/
def filterSlot (filt : List M → List M) : Slot M → Slot M
  | none => none
  | some [] => some []
  | some (m :: ms) => some (filt (m :: ms))

/-- Embeds `_update_filtered_markers`: rebuild `self.marker_cache` by applying
`filterSlot` to every slot of `self.marker_cache_unfiltered`. -/
def update_filtered_markers (filt : List M → List M) (st : Tracker M) : Tracker M :=
  { st with marker_cache := st.marker_cache_unfiltered.map (filterSlot filt) }

/-- Embeds `_recalculate_marker_cache(previous_state=None)`.  With no previous
state the cache restarts from all-`False` and every surface location cache is
reset to `None`; with a previous state both are kept.  Then the unfiltered
cache is rebuilt from `previous_state`, the filtered cache re-derived, and a
new background video processor is created, seeded with `list(self.marker_cache)`
and the current `inverted_markers` flag.  The trace records exactly the
external calls the body makes: a single producer creation (the body performs
no `cancel()` on any previous `self.cache_filler`). -/
def recalculate_marker_cache (filt : List M → List M) (prev : Option (List (Slot M)))
    (st : Tracker M) : Tracker M × List (TEvent M) :=
  let (previous_state, surfaces) :=
    match prev with
    | none =>
        (List.replicate st.frameCount (none : Slot M),
         st.surfaces.map (fun s => { s with location_cache := none }))
    | some p => (p, st.surfaces)
  let st := { st with surfaces := surfaces, marker_cache_unfiltered := previous_state }
  let st := update_filtered_markers filt st
  let newFiller : VideoFiller M := ⟨st.nextId, [], false⟩
  ({ st with cache_filler := some newFiller, nextId := st.nextId + 1 },
   [TEvent.createVideoFiller st.nextId st.marker_cache st.inverted_markers])

/-- The persisted `square_marker_cache` document after the `get` calls of
`_init_marker_cache` have applied their defaults: `version` defaults to `0`,
`cache` (`marker_cache_unfiltered`) to `None`, `inverted` to `False`.  The
slots are already deserialized: the dictionary-to-`Square_Marker_Detection`
conversion loop of `_init_marker_cache` is the identity at this level of
abstraction (detections are opaque). -/
structure PersistedDoc (M : Type) where
  version : Nat
  cache : Option (List (Slot M))
  inverted : Bool

/-- Embeds `_init_marker_cache`: no persisted cache means a fresh rebuild; a
version mismatch adopts the persisted `inverted_markers` flag and then rebuilds
fresh; a version match resumes from the persisted slots and adopts the
persisted flag after the rebuild call. -/
def init_marker_cache (filt : List M → List M) (doc : PersistedDoc M)
    (st : Tracker M) : Tracker M × List (TEvent M) :=
  match doc.cache with
  | none => recalculate_marker_cache filt none st
  | some cache =>
      if doc.version ≠ MARKER_CACHE_VERSION then
        let st := { st with inverted_markers := doc.inverted }
        recalculate_marker_cache filt none st
      else
        let r := recalculate_marker_cache filt (some cache) st
        ({ r.1 with inverted_markers := doc.inverted }, r.2)

/-- Inserts the indices `0, ..., n-1` into the set of pending heatmap-update
requests, modelling `for surface in self.surfaces: self._heatmap_update_requests.add(surface)`. -/
def addAllSurfaces (req : List Nat) (n : Nat) : List Nat :=
  (List.range n).foldl (fun r i => r.insert i) req

/-- Embeds `_start_gaze_buffer_filler`: cancel the in-flight gaze filler if
there is one, then create the replacement. -/
def start_gaze_buffer_filler (st : Tracker M) : Tracker M × List (TEvent M) :=
  let cancelTrace : List (TEvent M) :=
    match st.gaze_on_surf_buffer_filler with
    | some f => [TEvent.cancelGazeFiller f.fid]
    | none => []
  let newFiller : BufFiller := ⟨st.nextId, [], false⟩
  ({ st with gaze_on_surf_buffer_filler := some newFiller, nextId := st.nextId + 1 },
   cancelTrace ++ [TEvent.createGazeFiller st.nextId])

/-- Embeds `_start_fixation_buffer_filler`: cancel the in-flight fixation
filler if there is one, then create the replacement. -/
def start_fixation_buffer_filler (st : Tracker M) : Tracker M × List (TEvent M) :=
  let cancelTrace : List (TEvent M) :=
    match st.fixations_on_surf_buffer_filler with
    | some f => [TEvent.cancelFixationFiller f.fid]
    | none => []
  let newFiller : BufFiller := ⟨st.nextId, [], false⟩
  ({ st with fixations_on_surf_buffer_filler := some newFiller, nextId := st.nextId + 1 },
   cancelTrace ++ [TEvent.createFixationFiller st.nextId])

/-- Embeds `_fill_gaze_on_surf_buffer`: always start a gaze buffer filler over
the trim section; start a fixation buffer filler in addition exactly when
`self.make_export` is set. -/
def fill_gaze_on_surf_buffer (st : Tracker M) : Tracker M × List (TEvent M) :=
  let g := start_gaze_buffer_filler st
  if g.1.make_export then
    let f := start_fixation_buffer_filler g.1
    (f.1, g.2 ++ f.2)
  else
    (g.1, g.2)

/-- One iteration of the drain loop of `_update_marker_and_surface_caches` for
a fetched `(frame_index, markers)` pair: deduplicate, write the unfiltered
cache, filter the deduplicated result, write the filtered cache, then request
a location-cache update at that index from every surface, passing the (just
updated) filtered cache `self.marker_cache`. -/
def process_fetched (filt dedup : List M → List M) (st : Tracker M)
    (item : Nat × List M) : Tracker M × List (TEvent M) :=
  let frame_index := item.1
  let markers := dedup item.2
  let st := { st with
    marker_cache_unfiltered := st.marker_cache_unfiltered.set frame_index (some markers) }
  let markers_filtered := filt markers
  let st := { st with
    marker_cache := st.marker_cache.set frame_index (some markers_filtered) }
  (st, (List.range st.surfaces.length).map
    (fun i => TEvent.updLocationCache i frame_index st.marker_cache))

/-- The whole drain loop of `_update_marker_and_surface_caches`: process every
pair returned by `self.cache_filler.fetch()` in order. -/
def drainLoop (filt dedup : List M → List M) (st : Tracker M) :
    List (Nat × List M) → Tracker M × List (TEvent M)
  | [] => (st, [])
  | item :: rest =>
      let r := process_fetched filt dedup st item
      let r2 := drainLoop filt dedup r.1 rest
      (r2.1, r.2 ++ r2.2)

/-- Embeds `_update_marker_and_surface_caches`.  If no cache filler is active
the body returns immediately.  Otherwise it drains the fetched pairs; if the
filler reports completion it is dropped, every surface is added to the pending
heatmap-update requests, the gaze buffer fill is triggered, the marker cache is
persisted and the surface definitions are persisted.  Finally the
time-debounced periodic save runs. -/
def update_marker_and_surface_caches (filt dedup : List M → List M) (now : Nat)
    (st : Tracker M) : Tracker M × List (TEvent M) :=
  match st.cache_filler with
  | none => (st, [])
  | some filler =>
      let d := drainLoop filt dedup st filler.pending
      let st1 := { d.1 with cache_filler := some { filler with pending := [] } }
      let r2 :=
        if filler.completedFlag then
          let stc := { st1 with
            cache_filler := none,
            heatmap_update_requests :=
              addAllSurfaces st1.heatmap_update_requests st1.surfaces.length }
          let g := fill_gaze_on_surf_buffer stc
          (g.1, g.2 ++ [TEvent.saveMarkerCache, TEvent.saveSurfaceDefinitions])
        else
          (st1, ([] : List (TEvent M)))
      if CACHE_UPDATE_INTERVAL_SEC < now - r2.1.last_cache_update_ts then
        ({ r2.1 with last_cache_update_ts := now }, d.2 ++ r2.2 ++ [TEvent.saveMarkerCache])
      else
        (r2.1, d.2 ++ r2.2)

/-- Embeds `_fetch_data_from_bg_fillers`.  If no gaze filler is active nothing
happens.  Otherwise the gaze filler is drained into `gaze_on_surf_buffer`
(created on first append, so an empty fetch leaves a `None` buffer untouched);
the fixation filler, when present, is drained the same way.  When the gaze
filler is completed and the fixation filler is absent or completed, both filler
references are dropped, the per-surface heatmap update runs, the statistics
export runs when `make_export` is set, and both accumulation buffers are
released. -/
def fetch_data_from_bg_fillers (st : Tracker M) : Tracker M × List (TEvent M) :=
  match st.gaze_on_surf_buffer_filler with
  | none => (st, [])
  | some gf =>
      let gbuf :=
        if gf.pending.isEmpty then st.gaze_on_surf_buffer
        else some (st.gaze_on_surf_buffer.getD [] ++ gf.pending)
      let st := { st with
        gaze_on_surf_buffer := gbuf,
        gaze_on_surf_buffer_filler := some { gf with pending := [] } }
      let st :=
        match st.fixations_on_surf_buffer_filler with
        | none => st
        | some ff =>
            let fbuf :=
              if ff.pending.isEmpty then st.fixations_on_surf_buffer
              else some (st.fixations_on_surf_buffer.getD [] ++ ff.pending)
            { st with
              fixations_on_surf_buffer := fbuf,
              fixations_on_surf_buffer_filler := some { ff with pending := [] } }
      let fixDone :=
        match st.fixations_on_surf_buffer_filler with
        | none => true
        | some ff => ff.completedFlag
      if gf.completedFlag && fixDone then
        let st := { st with
          gaze_on_surf_buffer_filler := none,
          fixations_on_surf_buffer_filler := none }
        let tr : List (TEvent M) :=
          TEvent.updateSurfaceHeatmaps ::
            (if st.make_export then [TEvent.saveSurfaceStatistics] else [])
        let st := { st with
          gaze_on_surf_buffer := none,
          fixations_on_surf_buffer := none }
        (st, tr)
      else
        (st, [])

/-- The notification subjects `on_notify` of this file dispatches on, as a
closed tagged union.  Surface names are abstracted to numbers; `should_export`
carries the export range (the export directory is a filesystem concern). -/
inductive Notification
  | marker_detection_params_changed
  | marker_min_perimeter_changed
  | heatmap_params_changed (nm : Nat)
  | trim_indices_changed
  | surfaces_changed (nm : Nat)
  | should_export (rng : Nat × Nat)
  | gaze_positions_changed
deriving DecidableEq

/-- Applies `f` to the element at position `i`, leaving the rest unchanged,
modelling an in-place mutation of `self.surfaces[i]`. -/
def modifyAt (i : Nat) (f : Surface → Surface) : List Surface → List Surface
  | [] => []
  | s :: rest =>
      match i with
      | 0 => f s :: rest
      | j + 1 => s :: modifyAt j f rest

/-- Embeds the dispatch of `on_notify` in `Surface_Tracker_Offline` (the
superclass handler `Surface_Tracker.on_notify` runs first but is outside this
file).  The `heatmap_params_changed` and `surfaces_changed` branches mutate the
first surface whose name matches and then break out of their loop. -/
def on_notify (filt : List M → List M) (n : Notification) (st : Tracker M) :
    Tracker M × List (TEvent M) :=
  match n with
  | .marker_detection_params_changed =>
      recalculate_marker_cache filt none st
  | .marker_min_perimeter_changed =>
      let st := update_filtered_markers filt st
      ({ st with surfaces := st.surfaces.map (fun s => { s with location_cache := none }) },
       [])
  | .heatmap_params_changed nm =>
      let st :=
        match st.surfaces.findIdx? (fun s => s.sname == nm) with
        | some i =>
            { st with
              heatmap_update_requests := st.heatmap_update_requests.insert i,
              surfaces := modifyAt i (fun s => { s with heatmap_placeholder := true })
                st.surfaces }
        | none => st
      fill_gaze_on_surf_buffer st
  | .trim_indices_changed =>
      let st := { st with
        surfaces := st.surfaces.map (fun s => { s with heatmap_placeholder := true }),
        heatmap_update_requests :=
          addAllSurfaces st.heatmap_update_requests st.surfaces.length }
      fill_gaze_on_surf_buffer st
  | .surfaces_changed nm =>
      let st :=
        match st.surfaces.findIdx? (fun s => s.sname == nm) with
        | some i =>
            { st with
              heatmap_update_requests := st.heatmap_update_requests.insert i,
              surfaces := modifyAt i
                (fun s => { s with location_cache := none, heatmap_placeholder := true })
                st.surfaces }
        | none => st
      fill_gaze_on_surf_buffer st
  | .should_export rng =>
      let st := { st with make_export := true, export_params := some rng }
      fill_gaze_on_surf_buffer st
  | .gaze_positions_changed =>
      let st := { st with
        surfaces := st.surfaces.map (fun s => { s with heatmap_placeholder := true }),
        heatmap_update_requests :=
          addAllSurfaces st.heatmap_update_requests st.surfaces.length }
      fill_gaze_on_surf_buffer st

/-- The per-surface loop of `_export_surface_visibility`: returns the
`(surface_name, visible_frame_count)` rows written to the csv before the loop
ends or early-returns, and whether the not-cached warning was logged.  A
surface whose `location_cache` is `None` logs the warning and returns from the
method at once; rows written for earlier surfaces are already in the file. -/
def exportVisibilityRows : List Surface → List (Nat × Nat) × Bool
  | [] => ([], false)
  | s :: rest =>
      match s.location_cache with
      | none => ([], true)
      | some _ =>
          let r := exportVisibilityRows rest
          ((s.sname, s.visible_count) :: r.1, r.2)

/-- One row of the surface-events report: `(frame_id, surface_name, is_enter)`.
The timestamp column is looked up at write time and adds no information. -/
abbrev EventRow := Nat × Nat × Bool

/-- The per-surface event collection loop of `_export_surface_events`:
`surface.location_cache.positive_ranges` is read with no `None` guard, so a
surface whose cache is `None` raises `AttributeError`, modelled as `none`. -/
def collectSurfaceEvents : List Surface → Option (List EventRow)
  | [] => some []
  | s :: rest =>
      match s.location_cache with
      | none => none
      | some lc =>
          match collectSurfaceEvents rest with
          | none => none
          | some evs =>
              some ((lc.positive_ranges.flatMap
                (fun r => [(r.1, s.sname, true), (r.2, s.sname, false)])) ++ evs)

/-- Stable insertion into an event list sorted by frame id, modelling
`events.sort(key=lambda x: x["frame_id"])`. -/
def insertByFrame (e : EventRow) : List EventRow → List EventRow
  | [] => [e]
  | x :: xs => if e.1 < x.1 then e :: x :: xs else x :: insertByFrame e xs

/-- Sorts event rows by frame id. -/
def sortByFrame (l : List EventRow) : List EventRow :=
  l.foldl (fun acc e => insertByFrame e acc) []

/-- Embeds `_export_surface_events`: collect the enter and exit events of every
surface location cache, sort by frame id; `none` models the unguarded
`AttributeError` raised when some location cache is `None`. -/
def export_surface_events (surfaces : List Surface) : Option (List EventRow) :=
  (collectSurfaceEvents surfaces).map sortByFrame

/-- Whether `_export_surface_gaze_distribution` finishes without raising: its
loop reads `self.gaze_on_surf_buffer[surf_idx]` for every surface index, so it
raises when the buffer is `None` or shorter than the surface list while at
least one surface exists. -/
def gaze_distribution_ok (numSurfaces : Nat) (gazeBuf : Option (List Nat)) : Bool :=
  match gazeBuf with
  | none => numSurfaces == 0
  | some b => numSurfaces ≤ b.length

/-- Outcome of `save_surface_statisics_to_file` up to the surface-events
report.  The per-surface csv and heatmap writers that follow are downstream
formatting outside the core (spec section 1) and are not modelled; `completed`
means the control flow reached them. -/
inductive ExportOutcome
  | mkdirFailed
  | crashedInGazeDistribution (visRows : List (Nat × Nat)) (visWarned : Bool)
  | crashedInEvents (visRows : List (Nat × Nat)) (visWarned : Bool)
  | completed (visRows : List (Nat × Nat)) (visWarned : Bool) (events : List EventRow)
deriving DecidableEq

/-- Embeds `save_surface_statisics_to_file` up to the surface-events report.
`mkdirOk` is whether the metrics directory exists or could be created; on
failure the method warns and returns.  Otherwise `_export_surface_visibility`
runs (its early return does not abort the export), then
`_export_surface_gaze_distribution`, then `_export_surface_events`, which
raises when some surface location cache is `None`. -/
def save_surface_statisics_to_file (mkdirOk : Bool) (surfaces : List Surface)
    (gazeBuf : Option (List Nat)) : ExportOutcome :=
  if !mkdirOk then
    ExportOutcome.mkdirFailed
  else
    let vis := exportVisibilityRows surfaces
    if !gaze_distribution_ok surfaces.length gazeBuf then
      ExportOutcome.crashedInGazeDistribution vis.1 vis.2
    else
      match export_surface_events surfaces with
      | none => ExportOutcome.crashedInEvents vis.1 vis.2
      | some evs => ExportOutcome.completed vis.1 vis.2 evs

/-- A concrete tracker state used to evaluate the theorems on explicit inputs:
`frameCount` 3, the given caches, fillers, surfaces and flags, everything else
zeroed. -/
def mkTracker (unf fc : List (Slot Nat)) (vf : Option (VideoFiller Nat))
    (ss : List Surface) (gf ff : Option BufFiller) (mkexp : Bool) : Tracker Nat :=
  { frameCount := 3
    marker_cache_unfiltered := unf
    marker_cache := fc
    cache_filler := vf
    surfaces := ss
    heatmap_update_requests := []
    gaze_on_surf_buffer := none
    gaze_on_surf_buffer_filler := gf
    fixations_on_surf_buffer := none
    fixations_on_surf_buffer_filler := ff
    make_export := mkexp
    export_params := none
    inverted_markers := false
    last_cache_update_ts := 0
    nextId := 5 }

/-- The filtering step of `_update_filtered_markers` keeps the `False` sentinel
exactly on the `False` sentinel. -/
theorem filterSlot_eq_none_iff (filt : List M → List M) (s : Slot M) :
    filterSlot filt s = none ↔ s = none := by
  cases s with
  | none => simp [filterSlot]
  | some l => cases l <;> simp [filterSlot]

/-- C10: re-deriving the filtered cache from the unfiltered cache preserves
visited status at every index: the rebuilt filtered cache is the slotwise
filtering of the unfiltered one; a filtered slot is the `False` sentinel iff
the unfiltered slot is; a `False` or empty unfiltered slot is carried over
unchanged; a nonempty unfiltered slot is passed through `_filter_markers` and
stays a list, so refiltering never downgrades a computed slot to unknown. -/
theorem c10_refilter_preserves_visited (filt : List M → List M) (st : Tracker M)
    (i : Nat) :
    (update_filtered_markers filt st).marker_cache =
      st.marker_cache_unfiltered.map (filterSlot filt)
    ∧ ((update_filtered_markers filt st).marker_cache[i]? = some none
        ↔ st.marker_cache_unfiltered[i]? = some none)
    ∧ (st.marker_cache_unfiltered[i]? = some (some ([] : List M)) →
        (update_filtered_markers filt st).marker_cache[i]? = some (some []))
    ∧ (∀ m ms, st.marker_cache_unfiltered[i]? = some (some (m :: ms)) →
        (update_filtered_markers filt st).marker_cache[i]? = some (some (filt (m :: ms))))
    ∧ (∀ l, st.marker_cache_unfiltered[i]? = some (some l) →
        ∃ l2, (update_filtered_markers filt st).marker_cache[i]? = some (some l2)) := by
  have hmap : (update_filtered_markers filt st).marker_cache[i]? =
      (st.marker_cache_unfiltered[i]?).map (filterSlot filt) := by
    simp [update_filtered_markers]
  refine ⟨rfl, ?_, ?_, ?_, ?_⟩
  · rw [hmap]
    cases h : st.marker_cache_unfiltered[i]? with
    | none => simp
    | some s => simp [filterSlot_eq_none_iff]
  · intro h
    rw [hmap, h]
    simp [filterSlot]
  · intro m ms h
    rw [hmap, h]
    simp [filterSlot]
  · intro l h
    rw [hmap, h]
    cases l <;> simp [filterSlot]

/-- C10 witness: a concrete evaluation of the theorem. -/
theorem c10_witness :
    ∃ l2, (update_filtered_markers (fun l => l.filter (fun m => 5 < m))
      (mkTracker [none, some [], some [3, 7]] [none, none, none] none [] none none
        false)).marker_cache[2]? = some (some l2) :=
  (c10_refilter_preserves_visited (fun l => l.filter (fun m => 5 < m))
    (mkTracker [none, some [], some [3, 7]] [none, none, none] none [] none none
      false) 2).2.2.2.2 [3, 7] (by decide)

/-- C2: on the `marker_min_perimeter_changed` notification the filtered cache
is re-derived solely by re-applying the filter to every slot of the existing
unfiltered cache, the unfiltered cache is untouched, the cache filler is
unchanged and no external producer call is made (no re-decode, no new
producer), and every surface location cache is reset to `None`. -/
theorem c2_min_perimeter_changed (filt : List M → List M) (st : Tracker M) :
    (on_notify filt Notification.marker_min_perimeter_changed st).1.marker_cache =
      st.marker_cache_unfiltered.map (filterSlot filt)
    ∧ (on_notify filt Notification.marker_min_perimeter_changed st).1.marker_cache_unfiltered =
        st.marker_cache_unfiltered
    ∧ (on_notify filt Notification.marker_min_perimeter_changed st).1.cache_filler =
        st.cache_filler
    ∧ (on_notify filt Notification.marker_min_perimeter_changed st).2 = []
    ∧ (on_notify filt Notification.marker_min_perimeter_changed st).1.surfaces =
        st.surfaces.map (fun s => { s with location_cache := none }) := by
  refine ⟨rfl, rfl, rfl, rfl, rfl⟩

/-- Starting the gaze (and possibly fixation) buffer fillers leaves the two
marker caches, the surface list, the cache filler and the pending
heatmap-update requests untouched. -/
theorem fill_gaze_preserves_caches (st : Tracker M) :
    (fill_gaze_on_surf_buffer st).1.marker_cache_unfiltered = st.marker_cache_unfiltered
    ∧ (fill_gaze_on_surf_buffer st).1.marker_cache = st.marker_cache
    ∧ (fill_gaze_on_surf_buffer st).1.surfaces = st.surfaces
    ∧ (fill_gaze_on_surf_buffer st).1.cache_filler = st.cache_filler
    ∧ (fill_gaze_on_surf_buffer st).1.heatmap_update_requests =
        st.heatmap_update_requests := by
  unfold fill_gaze_on_surf_buffer start_gaze_buffer_filler start_fixation_buffer_filler
  dsimp only
  split <;> exact ⟨rfl, rfl, rfl, rfl, rfl⟩

/-- The drain loop touches only the marker caches: surfaces, request set,
fillers and id counter pass through unchanged. -/
theorem drainLoop_preserves (filt dedup : List M → List M)
    (items : List (Nat × List M)) (st : Tracker M) :
    (drainLoop filt dedup st items).1.surfaces = st.surfaces
    ∧ (drainLoop filt dedup st items).1.heatmap_update_requests =
        st.heatmap_update_requests
    ∧ (drainLoop filt dedup st items).1.cache_filler = st.cache_filler
    ∧ (drainLoop filt dedup st items).1.nextId = st.nextId
    ∧ (drainLoop filt dedup st items).1.make_export = st.make_export := by
  induction items generalizing st with
  | nil => exact ⟨rfl, rfl, rfl, rfl, rfl⟩
  | cons a as ih => exact ih _

/-- Inserting every index below `n` into the request set makes each of them a
member. -/
theorem mem_foldl_insert (l req : List Nat) (i : Nat) (h : i ∈ req ∨ i ∈ l) :
    i ∈ l.foldl (fun r j => r.insert j) req := by
  induction l generalizing req with
  | nil => simpa using h
  | cons a as ih =>
      apply ih
      rcases h with h | h
      · exact Or.inl (List.mem_insert_of_mem h)
      · rcases List.mem_cons.mp h with rfl | h
        · exact Or.inl (List.mem_insert_self i req)
        · exact Or.inr h

/-- Every surface index below `n` is in the request set after
`addAllSurfaces`. -/
theorem mem_addAllSurfaces (req : List Nat) (n i : Nat) (h : i < n) :
    i ∈ addAllSurfaces req n :=
  mem_foldl_insert _ _ _ (Or.inr (List.mem_range.mpr h))

/-- Filling the gaze buffer always records the creation of a gaze filler with
the current fresh id. -/
theorem create_gaze_mem_fill (st : Tracker M) :
    TEvent.createGazeFiller st.nextId ∈ (fill_gaze_on_surf_buffer st).2 := by
  unfold fill_gaze_on_surf_buffer start_gaze_buffer_filler start_fixation_buffer_filler
  dsimp only
  split <;> simp

/-- C1: for every `(index, detections)` pair drained from the cache filler, the
drain loop deduplicates the detections, writes the result to the unfiltered
cache at that index, applies the filter to the deduplicated result, writes it
to the filtered cache at the same index, and then requests a location-cache
update at that index from every surface with the just-updated filtered cache
(not the unfiltered one) as input; `_update_marker_and_surface_caches` runs
exactly this loop over all fetched pairs before anything else, so its marker
caches are those of the drain loop and its trace starts with the drain trace. -/
theorem c1_drain_applies_pipeline_steps (filt dedup : List M → List M) (now : Nat)
    (st : Tracker M) (filler : VideoFiller M) (i : Nat) (m : List M)
    (hf : st.cache_filler = some filler) :
    (process_fetched filt dedup st (i, m)).1.marker_cache_unfiltered =
        st.marker_cache_unfiltered.set i (some (dedup m))
    ∧ (process_fetched filt dedup st (i, m)).1.marker_cache =
        st.marker_cache.set i (some (filt (dedup m)))
    ∧ (process_fetched filt dedup st (i, m)).2 =
        (List.range st.surfaces.length).map
          (fun j => TEvent.updLocationCache j i
            (st.marker_cache.set i (some (filt (dedup m)))))
    ∧ (update_marker_and_surface_caches filt dedup now st).1.marker_cache_unfiltered =
        (drainLoop filt dedup st filler.pending).1.marker_cache_unfiltered
    ∧ (update_marker_and_surface_caches filt dedup now st).1.marker_cache =
        (drainLoop filt dedup st filler.pending).1.marker_cache
    ∧ ∃ rest, (update_marker_and_surface_caches filt dedup now st).2 =
        (drainLoop filt dedup st filler.pending).2 ++ rest := by
  refine ⟨rfl, rfl, rfl, ?_⟩
  simp only [update_marker_and_surface_caches, hf]
  by_cases hc : filler.completedFlag <;>
    simp only [hc, Bool.false_eq_true, if_true, if_false, ite_true, ite_false] <;>
    split <;>
    first
      | exact ⟨rfl, rfl, _, rfl⟩
      | exact ⟨rfl, rfl, _, List.append_assoc _ _ _⟩
      | exact ⟨(fill_gaze_preserves_caches _).1, (fill_gaze_preserves_caches _).2.1,
          _, rfl⟩
      | exact ⟨(fill_gaze_preserves_caches _).1, (fill_gaze_preserves_caches _).2.1,
          _, List.append_assoc _ _ _⟩

/-- A sample surface whose location cache is computed. -/
def surfA : Surface :=
  { sname := 0, location_cache := some ⟨[(10, 19)]⟩, heatmap_placeholder := false,
    visible_count := 5 }

/-- A sample surface whose location cache is still `None`. -/
def surfB : Surface :=
  { sname := 1, location_cache := none, heatmap_placeholder := false,
    visible_count := 0 }

/-- C1 witness: a concrete evaluation of the theorem. -/
theorem c1_witness :
    (process_fetched (fun l : List Nat => l.filter (fun m => 5 < m)) (fun l => l)
        (mkTracker [none, none, none] [none, none, none]
          (some ⟨7, [(1, [2, 9])], false⟩) [surfA] none none false)
        (1, [2, 9])).1.marker_cache =
      (mkTracker [none, none, none] [none, none, none]
        (some ⟨7, [(1, [2, 9])], false⟩) [surfA] none none false).marker_cache.set 1
        (some ([2, 9].filter (fun m => 5 < m))) :=
  (c1_drain_applies_pipeline_steps (fun l : List Nat => l.filter (fun m => 5 < m))
    (fun l => l) 0
    (mkTracker [none, none, none] [none, none, none]
      (some ⟨7, [(1, [2, 9])], false⟩) [surfA] none none false)
    ⟨7, [(1, [2, 9])], false⟩ 1 [2, 9] rfl).2.1

/-- Whether a trace contains a cancellation of a background video processor. -/
def containsCancelVideo (tr : List (TEvent M)) : Bool :=
  tr.any (fun e =>
    match e with
    | TEvent.cancelVideoFiller _ => true
    | _ => false)

/-- C3 counterexample: a marker-cache rebuild started while a producer is
running does not cancel the existing producer.  On a concrete state whose
cache filler (id 7) is active, the trace of `_recalculate_marker_cache`
contains no producer cancellation at all (it is exactly one producer
creation), refuting the claim that the existing producer is cancelled before
the new one is created. -/
theorem c3_counterexample :
    (mkTracker [none, none, none] [none, none, none]
        (some ⟨7, [], false⟩) [surfA] none none false).cache_filler =
      some ⟨7, [], false⟩
    ∧ containsCancelVideo
        (recalculate_marker_cache (fun l : List Nat => l) none
          (mkTracker [none, none, none] [none, none, none]
            (some ⟨7, [], false⟩) [surfA] none none false)).2 = false
    ∧ (recalculate_marker_cache (fun l : List Nat => l) none
        (mkTracker [none, none, none] [none, none, none]
          (some ⟨7, [], false⟩) [surfA] none none false)).2 =
        [TEvent.createVideoFiller 5 [none, none, none] false] := by
  refine ⟨rfl, rfl, rfl⟩

/-- C3 amended: starting a marker-cache rebuild while a producer is running
discards the existing producer — the `cache_filler` reference is overwritten
with the newly created producer, so at most one producer is referenced
afterwards — but no `cancel()` is invoked on the old producer: the trace of
`_recalculate_marker_cache` is exactly the creation of the new producer, with
no cancellation. -/
theorem c3_rebuild_discards_without_cancel (filt : List M → List M)
    (prev : Option (List (Slot M))) (st : Tracker M) (f : VideoFiller M)
    (hf : st.cache_filler = some f) :
    (recalculate_marker_cache filt prev st).1.cache_filler =
        some ⟨st.nextId, [], false⟩
    ∧ containsCancelVideo (recalculate_marker_cache filt prev st).2 = false
    ∧ (recalculate_marker_cache filt prev st).2 =
        [TEvent.createVideoFiller st.nextId
          (recalculate_marker_cache filt prev st).1.marker_cache st.inverted_markers] := by
  cases prev <;> exact ⟨rfl, rfl, rfl⟩

/-- C3 amended witness: a concrete evaluation of the amended theorem. -/
theorem c3_witness :
    (recalculate_marker_cache (fun l : List Nat => l) none
        (mkTracker [none, none, none] [none, none, none]
          (some ⟨2, [], true⟩) [surfA] none none false)).1.cache_filler =
      some ⟨5, [], false⟩ :=
  (c3_rebuild_discards_without_cancel (fun l : List Nat => l) none
    (mkTracker [none, none, none] [none, none, none]
      (some ⟨2, [], true⟩) [surfA] none none false) ⟨2, [], true⟩ rfl).1

/-- C4: behavior of `_init_marker_cache` on the persisted document.  If the
document has no cache the pipeline rebuilds from scratch.  If the cache is
present but its version differs from `MARKER_CACHE_VERSION`, this is not an
error: the persisted `inverted_markers` flag is adopted, every surface
location cache is reset, and the producer is created over an all-unknown
snapshot with the adopted polarity — the persisted slots are not resumed.
Only when the version matches is the resumed state the persisted slots: the
unfiltered cache is exactly the persisted cache and the producer snapshot is
its slotwise filtering, which marks a frame as visited exactly when the
persisted slot does. -/
theorem c4_init_version_mismatch_rebuilds (filt : List M → List M)
    (doc : PersistedDoc M) (st : Tracker M) :
    (doc.cache = none →
      init_marker_cache filt doc st = recalculate_marker_cache filt none st)
    ∧ (∀ c, doc.cache = some c → doc.version ≠ MARKER_CACHE_VERSION →
        (init_marker_cache filt doc st).1.inverted_markers = doc.inverted
        ∧ (init_marker_cache filt doc st).1.marker_cache_unfiltered =
            List.replicate st.frameCount none
        ∧ (init_marker_cache filt doc st).1.surfaces =
            st.surfaces.map (fun s => { s with location_cache := none })
        ∧ (init_marker_cache filt doc st).2 =
            [TEvent.createVideoFiller st.nextId
              (List.replicate st.frameCount (none : Slot M)) doc.inverted])
    ∧ (∀ c, doc.cache = some c → doc.version = MARKER_CACHE_VERSION →
        (init_marker_cache filt doc st).1.marker_cache_unfiltered = c
        ∧ (init_marker_cache filt doc st).1.surfaces = st.surfaces
        ∧ (init_marker_cache filt doc st).1.inverted_markers = doc.inverted
        ∧ (init_marker_cache filt doc st).2 =
            [TEvent.createVideoFiller st.nextId (c.map (filterSlot filt))
              st.inverted_markers]
        ∧ ∀ i : Nat, ((c.map (filterSlot filt))[i]? = some none ↔ (c)[i]? = some none)) := by
  refine ⟨?_, ?_, ?_⟩
  · intro hc
    simp only [init_marker_cache, hc]
  · intro c hc hv
    simp only [init_marker_cache, hc, if_pos hv]
    refine ⟨rfl, ?_, rfl, ?_⟩ <;>
      simp [recalculate_marker_cache, update_filtered_markers, List.map_replicate,
        filterSlot]
  · intro c hc hv
    have hv2 : ¬(doc.version ≠ MARKER_CACHE_VERSION) := by simp [hv]
    simp only [init_marker_cache, hc, if_neg hv2]
    refine ⟨by trivial, by trivial, by trivial, by trivial, ?_⟩
    intro i
    have hmap : (c.map (filterSlot filt))[i]? = ((c)[i]?).map (filterSlot filt) := by
      simp
    rw [hmap]
    cases h : (c)[i]? with
    | none => simp
    | some s => simp [filterSlot_eq_none_iff]

/-- C4 witness: a concrete evaluation of the theorem on a version-mismatch
document. -/
theorem c4_witness :
    (init_marker_cache (fun l : List Nat => l)
        ⟨0, some [some [1], none, some []], true⟩
        (mkTracker [] [] none [surfA] none none false)).1.inverted_markers = true :=
  ((c4_init_version_mismatch_rebuilds (fun l : List Nat => l)
      ⟨0, some [some [1], none, some []], true⟩
      (mkTracker [] [] none [surfA] none none false)).2.1
    [some [1], none, some []] rfl (by decide)).1

/-- C5: when the cache filler reports completion,
`_update_marker_and_surface_caches` performs all four completion actions:
every surface index enters the pending heatmap-update requests, a gaze buffer
filler is started, the unfiltered marker cache is persisted, the surface
definitions are persisted; and the filler reference is dropped. -/
theorem c5_completion_actions (filt dedup : List M → List M) (now : Nat)
    (st : Tracker M) (filler : VideoFiller M)
    (hf : st.cache_filler = some filler) (hc : filler.completedFlag = true) :
    (∀ i, i < st.surfaces.length →
      i ∈ (update_marker_and_surface_caches filt dedup now st).1.heatmap_update_requests)
    ∧ (∃ fid, TEvent.createGazeFiller fid ∈
        (update_marker_and_surface_caches filt dedup now st).2)
    ∧ TEvent.saveMarkerCache ∈ (update_marker_and_surface_caches filt dedup now st).2
    ∧ TEvent.saveSurfaceDefinitions ∈
        (update_marker_and_surface_caches filt dedup now st).2
    ∧ (update_marker_and_surface_caches filt dedup now st).1.cache_filler = none := by
  simp only [update_marker_and_surface_caches, hf, hc, ite_true, if_true]
  split
  all_goals
    refine ⟨?_, ?_, ?_, ?_, ?_⟩
    · intro i hi
      dsimp only
      rw [(fill_gaze_preserves_caches _).2.2.2.2]
      dsimp only
      apply mem_addAllSurfaces
      rw [(drainLoop_preserves filt dedup filler.pending st).1]
      exact hi
    · dsimp only
      refine ⟨(drainLoop filt dedup st filler.pending).1.nextId, ?_⟩
      simp only [List.mem_append]
      first
        | exact Or.inl (Or.inr (Or.inl (create_gaze_mem_fill _)))
        | exact Or.inr (Or.inl (create_gaze_mem_fill _))
    · simp
    · simp
    · dsimp only
      rw [(fill_gaze_preserves_caches _).2.2.2.1]

/-- C5 witness: a concrete evaluation of the theorem on a completed filler. -/
theorem c5_witness :
    TEvent.saveMarkerCache ∈
      (update_marker_and_surface_caches (fun l : List Nat => l) (fun l => l) 0
        (mkTracker [none] [none] (some ⟨7, [], true⟩) [surfA] none none false)).2 :=
  (c5_completion_actions (fun l : List Nat => l) (fun l => l) 0
    (mkTracker [none] [none] (some ⟨7, [], true⟩) [surfA] none none false)
    ⟨7, [], true⟩ rfl rfl).2.2.1

/-- C6: for each event kind, starting a new buffer filler while one is in
flight first calls `cancel()` on the old filler and only then creates the
replacement (the trace is exactly cancel-then-create); when none is in flight
only the creation happens; in both cases the state afterwards references
exactly the one new filler, so at most one filler per event kind is active. -/
theorem c6_buffer_filler_replacement (st : Tracker M) :
    (∀ f, st.gaze_on_surf_buffer_filler = some f →
      (start_gaze_buffer_filler st).2 =
        [TEvent.cancelGazeFiller f.fid, TEvent.createGazeFiller st.nextId])
    ∧ (st.gaze_on_surf_buffer_filler = none →
      (start_gaze_buffer_filler st).2 = [TEvent.createGazeFiller st.nextId])
    ∧ (start_gaze_buffer_filler st).1.gaze_on_surf_buffer_filler =
        some ⟨st.nextId, [], false⟩
    ∧ (∀ f, st.fixations_on_surf_buffer_filler = some f →
      (start_fixation_buffer_filler st).2 =
        [TEvent.cancelFixationFiller f.fid, TEvent.createFixationFiller st.nextId])
    ∧ (st.fixations_on_surf_buffer_filler = none →
      (start_fixation_buffer_filler st).2 = [TEvent.createFixationFiller st.nextId])
    ∧ (start_fixation_buffer_filler st).1.fixations_on_surf_buffer_filler =
        some ⟨st.nextId, [], false⟩ := by
  refine ⟨?_, ?_, rfl, ?_, ?_, rfl⟩
  · intro f hf
    simp [start_gaze_buffer_filler, hf]
  · intro h
    simp [start_gaze_buffer_filler, h]
  · intro f hf
    simp [start_fixation_buffer_filler, hf]
  · intro h
    simp [start_fixation_buffer_filler, h]

/-- C6 witness: a concrete evaluation of the theorem with a gaze filler in
flight. -/
theorem c6_witness :
    (start_gaze_buffer_filler
        (mkTracker [none] [none] none [surfA] (some ⟨3, [], false⟩) none false)).2 =
      [TEvent.cancelGazeFiller 3, TEvent.createGazeFiller 5] :=
  (c6_buffer_filler_replacement
    (mkTracker [none] [none] none [surfA] (some ⟨3, [], false⟩) none false)).1
    ⟨3, [], false⟩ rfl

/-- C7: the per-surface heatmap recompute is triggered by
`_fetch_data_from_bg_fillers` exactly when a gaze filler exists and is
completed and the fixation filler is absent or completed; the statistics
export runs exactly when that trigger holds and the export flag is set;
whenever the trigger fires, both filler references and both accumulation
buffers end up `None`; and `_fill_gaze_on_surf_buffer` creates a fixation
filler exactly when an export was requested. -/
theorem c7_completion_of_all_fillers (st : Tracker M) :
    ((TEvent.updateSurfaceHeatmaps ∈ (fetch_data_from_bg_fillers st).2) ↔
      (∃ gf, st.gaze_on_surf_buffer_filler = some gf ∧ gf.completedFlag = true ∧
        (st.fixations_on_surf_buffer_filler = none ∨
          ∃ ff, st.fixations_on_surf_buffer_filler = some ff ∧
            ff.completedFlag = true)))
    ∧ ((TEvent.saveSurfaceStatistics ∈ (fetch_data_from_bg_fillers st).2) ↔
      (st.make_export = true ∧
        ∃ gf, st.gaze_on_surf_buffer_filler = some gf ∧ gf.completedFlag = true ∧
          (st.fixations_on_surf_buffer_filler = none ∨
            ∃ ff, st.fixations_on_surf_buffer_filler = some ff ∧
              ff.completedFlag = true)))
    ∧ (TEvent.updateSurfaceHeatmaps ∈ (fetch_data_from_bg_fillers st).2 →
        (fetch_data_from_bg_fillers st).1.gaze_on_surf_buffer = none
        ∧ (fetch_data_from_bg_fillers st).1.fixations_on_surf_buffer = none
        ∧ (fetch_data_from_bg_fillers st).1.gaze_on_surf_buffer_filler = none
        ∧ (fetch_data_from_bg_fillers st).1.fixations_on_surf_buffer_filler = none)
    ∧ (st.make_export = false →
        (fill_gaze_on_surf_buffer st).1.fixations_on_surf_buffer_filler =
          st.fixations_on_surf_buffer_filler)
    ∧ (st.make_export = true →
        (fill_gaze_on_surf_buffer st).1.fixations_on_surf_buffer_filler =
          some ⟨st.nextId + 1, [], false⟩) := by
  have hfix1 : st.make_export = false →
      (fill_gaze_on_surf_buffer st).1.fixations_on_surf_buffer_filler =
        st.fixations_on_surf_buffer_filler := by
    intro h
    simp [fill_gaze_on_surf_buffer, start_gaze_buffer_filler, h]
  have hfix2 : st.make_export = true →
      (fill_gaze_on_surf_buffer st).1.fixations_on_surf_buffer_filler =
        some ⟨st.nextId + 1, [], false⟩ := by
    intro h
    simp [fill_gaze_on_surf_buffer, start_gaze_buffer_filler,
      start_fixation_buffer_filler, h]
  refine ⟨?_, ?_, ?_, hfix1, hfix2⟩
  all_goals
    cases hg : st.gaze_on_surf_buffer_filler with
    | none => simp [fetch_data_from_bg_fillers, hg]
    | some gf =>
        cases hfx : st.fixations_on_surf_buffer_filler with
        | none =>
            by_cases hgc : gf.completedFlag <;>
              by_cases hm : st.make_export <;>
                simp [fetch_data_from_bg_fillers, hg, hfx, hgc, hm]
        | some ff =>
            by_cases hgc : gf.completedFlag <;>
              by_cases hfc : ff.completedFlag <;>
                by_cases hm : st.make_export <;>
                  simp [fetch_data_from_bg_fillers, hg, hfx, hgc, hfc, hm]

/-- C7 witness: a concrete evaluation of the theorem on a completed gaze
filler with an export pending. -/
theorem c7_witness :
    (fetch_data_from_bg_fillers
        (mkTracker [none] [none] none [surfA] (some ⟨3, [], true⟩) none
          true)).1.gaze_on_surf_buffer_filler = none :=
  ((c7_completion_of_all_fillers
      (mkTracker [none] [none] none [surfA] (some ⟨3, [], true⟩) none true)).2.2.1
    (by decide)).2.2.1

/-- Characterization of the visibility-report loop: the warning is logged iff
some surface has a `None` location cache, and the rows written are exactly
those of the surfaces before the first one with a `None` cache. -/
theorem exportVisibilityRows_spec (surfaces : List Surface) :
    (exportVisibilityRows surfaces).2 =
        surfaces.any (fun s => s.location_cache.isNone)
    ∧ (exportVisibilityRows surfaces).1 =
        (surfaces.takeWhile (fun s => s.location_cache.isSome)).map
          (fun s => (s.sname, s.visible_count)) := by
  induction surfaces with
  | nil => exact ⟨rfl, rfl⟩
  | cons s rest ih =>
      cases hs : s.location_cache with
      | none => simp [exportVisibilityRows, hs]
      | some lc => simp [exportVisibilityRows, hs, ih.1, ih.2]

/-- C8 counterexample: with a first surface whose location cache is computed
and a second whose cache is still `None`, `_export_surface_visibility` logs
the warning and returns, but the `visible_frame_count` row of the first
surface has already been written — so a partial report is emitted, refuting
the claim that no value is emitted for any surface. -/
theorem c8_counterexample :
    (∃ s ∈ [surfA, surfB], s.location_cache = none)
    ∧ (exportVisibilityRows [surfA, surfB]).2 = true
    ∧ (exportVisibilityRows [surfA, surfB]).1 = [(0, 5)]
    ∧ (exportVisibilityRows [surfA, surfB]).1 ≠ [] := by decide

/-- C8 amended: when some requested surface has a `None` (not yet computed)
location cache at export time, the visibility report is aborted at the first
such surface with a logged warning and no row is emitted for it or any later
surface; the rows of the surfaces preceding the first uncached one have
already been written.  Only `None` caches are detected; a non-`None` cache is
used as-is. -/
theorem c8_visibility_aborts_at_first_uncached (surfaces : List Surface)
    (h : ∃ s ∈ surfaces, s.location_cache = none) :
    (exportVisibilityRows surfaces).2 = true
    ∧ (exportVisibilityRows surfaces).1 =
        (surfaces.takeWhile (fun s => s.location_cache.isSome)).map
          (fun s => (s.sname, s.visible_count)) := by
  refine ⟨?_, (exportVisibilityRows_spec surfaces).2⟩
  rw [(exportVisibilityRows_spec surfaces).1]
  rcases h with ⟨t, ht, htn⟩
  exact List.any_eq_true.mpr ⟨t, ht, by simp [htn]⟩

/-- C8 amended witness: a concrete evaluation of the amended theorem. -/
theorem c8_witness :
    (exportVisibilityRows [surfA, surfB]).2 = true :=
  (c8_visibility_aborts_at_first_uncached [surfA, surfB]
    ⟨surfB, by decide, rfl⟩).1

/-- Collecting surface events hits the unguarded `None` access as soon as any
surface location cache is `None`. -/
theorem collectSurfaceEvents_none (surfaces : List Surface)
    (h : ∃ s ∈ surfaces, s.location_cache = none) :
    collectSurfaceEvents surfaces = none := by
  induction surfaces with
  | nil => simp at h
  | cons s rest ih =>
      rcases h with ⟨t, ht, htn⟩
      rcases List.mem_cons.mp ht with rfl | ht2
      · simp [collectSurfaceEvents, htn]
      · cases hs : s.location_cache with
        | none => simp [collectSurfaceEvents, hs]
        | some lc => simp [collectSurfaceEvents, hs, ih ⟨t, ht2, htn⟩]

/-- C9: `_export_surface_events` reads `positive_ranges` on every surface
location cache without a guard, so when `save_surface_statisics_to_file` runs
while some surface location cache is `None` (the metrics directory and the
gaze buffer being fine), the events step raises the attribute error instead of
skipping with a warning: the overall export reaches the events step — the
early return of `_export_surface_visibility` only logged a warning — and ends
in the crash. -/
theorem c9_events_export_crashes (surfaces : List Surface)
    (gazeBuf : Option (List Nat))
    (hok : gaze_distribution_ok surfaces.length gazeBuf = true)
    (h : ∃ s ∈ surfaces, s.location_cache = none) :
    export_surface_events surfaces = none
    ∧ (exportVisibilityRows surfaces).2 = true
    ∧ save_surface_statisics_to_file true surfaces gazeBuf =
        ExportOutcome.crashedInEvents (exportVisibilityRows surfaces).1 true := by
  have hev : export_surface_events surfaces = none := by
    simp [export_surface_events, collectSurfaceEvents_none surfaces h]
  have hwarn : (exportVisibilityRows surfaces).2 = true := by
    rw [(exportVisibilityRows_spec surfaces).1]
    rcases h with ⟨t, ht, htn⟩
    exact List.any_eq_true.mpr ⟨t, ht, by simp [htn]⟩
  refine ⟨hev, hwarn, ?_⟩
  simp [save_surface_statisics_to_file, hok, hev, hwarn]

/-- C9 witness: a concrete evaluation of the theorem. -/
theorem c9_witness :
    save_surface_statisics_to_file true [surfA, surfB] (some [0, 0]) =
      ExportOutcome.crashedInEvents (exportVisibilityRows [surfA, surfB]).1 true :=
  (c9_events_export_crashes [surfA, surfB] (some [0, 0]) (by decide)
    ⟨surfB, by decide, rfl⟩).2.2

end SurfaceTrackerOffline
